import Mathlib

/-!
Verification of the KrakenTrades pipeline (reference variant:
`src/file_management` with the shared `kraken_core` / `market` modules,
plus the `src/src/file_management` aggregation helpers it mirrors).

The development shallowly embeds, in order:
* the character-level helpers standing in for Python `str` methods and the
  two precompiled regexes (`TradeRegex.DATE`, `TradeRegex.TRADE`);
* the page-line scanner of `extract_kraken_trade_records_from_pdf`;
* the record normalizer `build_trade_dataframe`;
* the per-asset aggregators `compute_trade_metrics` (portfolio_metrics.py)
  and the inline per-pair block of `write_excel` (excel_writer.py);
* the manual injections and `generate_portfolio_summary`.

Python floats are modelled as exact rationals (ℚ); `pd.to_numeric`,
pandas `NaN` propagation and `skipna` sums are modelled with `Option ℚ`.
-/

/-- Python `str.strip()` on a character list: drop whitespace from both
ends (the codebase only ever strips ASCII whitespace). -/
def trimChars (cs : List Char) : List Char :=
  ((cs.dropWhile Char.isWhitespace).reverse.dropWhile Char.isWhitespace).reverse

/-- Python `s.strip()`. -/
def pyStrip (s : String) : String := ⟨trimChars s.data⟩

/-- Python `s.startswith(pre)`. -/
def pyStartsWith (s pre : String) : Bool := pre.data.isPrefixOf s.data

/-- Split a character list at every occurrence of `sep` (keeping empty
groups, like Python `str.split(sep)`). -/
def splitOnChar (sep : Char) : List Char → List (List Char)
  | [] => [[]]
  | c :: cs =>
    let r := splitOnChar sep cs
    if c = sep then [] :: r
    else match r with
      | [] => [[c]]
      | g :: gs => (c :: g) :: gs

/-- Maximal non-whitespace runs of a character list: the fields seen by a
regex alternating `\s+`-separated groups whose classes exclude whitespace. -/
def wsFields (cs : List Char) : List (List Char) :=
  (cs.splitOnP Char.isWhitespace).filter (· ≠ [])

/-- ASCII uppercase letter (regex class `[A-Z]`). -/
def isUpperAZ (c : Char) : Bool := 'A' ≤ c && c ≤ 'Z'

/-- Regex class `[A-Z0-9]`. -/
def isUpperAlnum (c : Char) : Bool := isUpperAZ c || c.isDigit

/-- Regex class `[A-Z0-9-]` (the `uid` group of `TradeRegex.TRADE`). -/
def isUidChar (c : Char) : Bool := isUpperAlnum c || c == '-'

/-- Full-match of `\d{4}-\d{2}-\d{2}` on a character list: exactly three
`-`-separated all-digit groups of widths 4, 2, 2. -/
def isDateChars (cs : List Char) : Bool :=
  match splitOnChar '-' cs with
  | [y, m, d] =>
    y.length == 4 && m.length == 2 && d.length == 2 &&
      (y ++ m ++ d).all Char.isDigit
  | _ => false

/-- Matching `TradeRegex.DATE = ^\d{4}-\d{2}-\d{2}$` applied with `.match` (which in
Python is implicitly anchored at the start; `$` closes the end). -/
def dateRegexMatches (s : String) : Bool := isDateChars s.data

/-- Full-match of `[A-Z0-9]+/[A-Z0-9]+` (the `pair` group): exactly one
`/`, both sides nonempty runs of `[A-Z0-9]`. -/
def isPairChars (cs : List Char) : Bool :=
  match splitOnChar '/' cs with
  | [a, b] => !a.isEmpty && !b.isEmpty && a.all isUpperAlnum && b.all isUpperAlnum
  | _ => false

/-- Full-match of `\d+\.\d+` (the numeric groups): one `.`, both sides
nonempty digit runs. -/
def isDecChars (cs : List Char) : Bool :=
  match splitOnChar '.' cs with
  | [a, b] => !a.isEmpty && !b.isEmpty && a.all Char.isDigit && b.all Char.isDigit
  | _ => false

/-- Raw trade record: the `groupdict()` of a `TradeRegex.TRADE` match —
all ten named capture groups, as strings. -/
structure RawRecord where
  date : String
  uid : String
  pair : String
  type : String
  subtype : String
  price : String
  cost : String
  volume : String
  fee : String
  margin : String
  deriving Repr, DecidableEq

/-- Matching `TradeRegex.TRADE.match(s)` followed by `groupdict()`.

The regex is `^date\s+uid\s+pair\s+(Buy|Sell)\s+(Limit|Market)\s+` then five
`\d+\.\d+` groups and `$`.  Every group's class excludes whitespace, and the
groups are separated by mandatory `\s+`, so a string matches iff it has no
leading or trailing whitespace and its maximal non-whitespace fields are
exactly ten fields full-matching the ten group patterns in order. -/
def matchTrade (s : String) : Option RawRecord :=
  let cs := s.data
  -- the `^` / `$` anchors: leading or trailing whitespace kills the match
  if cs.head?.any Char.isWhitespace || cs.getLast?.any Char.isWhitespace then
    none
  else
    match wsFields cs with
    | [date, uid, pair, ty, sub, price, cost, vol, fee, margin] =>
      if isDateChars date && (!uid.isEmpty && uid.all isUidChar) &&
          isPairChars pair && (ty = "Buy".data || ty = "Sell".data) &&
          (sub = "Limit".data || sub = "Market".data) &&
          isDecChars price && isDecChars cost && isDecChars vol &&
          isDecChars fee && isDecChars margin then
        some ⟨⟨date⟩, ⟨uid⟩, ⟨pair⟩, ⟨ty⟩, ⟨sub⟩, ⟨price⟩, ⟨cost⟩, ⟨vol⟩,
          ⟨fee⟩, ⟨margin⟩⟩
      else none
    | _ => none

/-- The page scan of `extract_kraken_trade_records_from_pdf`
(src/file_management/pdf_parser.py lines 13–25), embedded literally as the
`while i < len(lines) - 1` loop: at index `i` it strips lines `i` and
`i+1`; if the first is a date-line and the second does not start with
`"Page"` it emits their space-joined merge and advances by 2, else it
advances by 1.  Out-of-range reads cannot occur (`i + 1 ≤ len - 1`). -/
def scanAux (lines : List String) (i : Nat) : List String :=
  if i < lines.length - 1 then
    let date_line := pyStrip (lines.getD i "")
    let trade_line := pyStrip (lines.getD (i + 1) "")
    if dateRegexMatches date_line && !pyStartsWith trade_line "Page" then
      (date_line ++ " " ++ trade_line) :: scanAux lines (i + 2)
    else
      scanAux lines (i + 1)
  else []
termination_by lines.length - i
decreasing_by all_goals omega

/-- The merge candidates produced from one page's lines (`i` starts at 0). -/
def mergeCandidates (lines : List String) : List String := scanAux lines 0

/-- The stepping rule exactly as the specification words it: if line `i` is
a date-line and line `i+1` does not start with `"Page"`, concatenate them
with a single space and advance by 2; otherwise advance by 1; a trailing
single line is never examined as a date-line. -/
def specStepRule : List String → List String
  | a :: b :: rest =>
    if dateRegexMatches (pyStrip a) && !pyStartsWith (pyStrip b) "Page" then
      (pyStrip a ++ " " ++ pyStrip b) :: specStepRule rest
    else
      specStepRule (b :: rest)
  | _ => []

/-- Embeds `extract_kraken_trade_records_from_pdf`, with the PDF abstracted to its
per-page text lines: every page's merge candidates are matched against
`TradeRegex.TRADE`; match failures are dropped (logged only); if no record
matched across the whole document a `RuntimeError` is raised, modelled as
`Except.error`. -/
def extractKrakenTradeRecords (pages : List (List String)) :
    Except String (List RawRecord) :=
  let records := (pages.map fun lines => (mergeCandidates lines).filterMap matchTrade).flatten
  if records.isEmpty then
    .error "No trades matched — check PDF format or regex."
  else
    .ok records

/-- The index-based loop scan agrees with the structural stepping rule on
the suffix it still has to process. -/
theorem scanAux_eq_specStepRule (lines : List String) (i : Nat) :
    scanAux lines i = specStepRule (lines.drop i) := by
  rw [scanAux]
  split
  next h =>
    have h1 : i < lines.length := by omega
    have h2 : i + 1 < lines.length := by omega
    have hd : lines.drop i = lines[i] :: lines[i + 1] :: lines.drop (i + 2) := by
      rw [List.drop_eq_getElem_cons h1, List.drop_eq_getElem_cons h2]
    have ih1 := scanAux_eq_specStepRule lines (i + 2)
    have ih2 := scanAux_eq_specStepRule lines (i + 1)
    rw [List.drop_eq_getElem_cons h2] at ih2
    have e : i + 1 + 1 = i + 2 := by omega
    rw [e] at ih2
    rw [List.getD_eq_getElem lines "" h1, List.getD_eq_getElem lines "" h2, hd,
      specStepRule]
    split
    next hc =>
      dsimp only
      rw [if_pos hc, ih1]
    next hc =>
      dsimp only
      rw [if_neg hc, ih2]
  next h =>
    have hlen : (lines.drop i).length ≤ 1 := by
      rw [List.length_drop]; omega
    cases hdrop : lines.drop i with
    | nil => rfl
    | cons a tail =>
      cases tail with
      | nil => rfl
      | cons b r =>
        rw [hdrop] at hlen
        simp at hlen
termination_by lines.length - i
decreasing_by all_goals omega

/-- The merge-candidate scan, rephrased structurally. -/
theorem mergeCandidates_eq_specStepRule (lines : List String) :
    mergeCandidates lines = specStepRule lines := by
  rw [mergeCandidates, scanAux_eq_specStepRule, List.drop_zero]

/-- Digit-string to number (`int("0123") = 123` on all-digit input). -/
def charsToNat (cs : List Char) : Nat :=
  cs.foldl (fun acc c => 10 * acc + (c.toNat - '0'.toNat)) 0

/-- Models `pd.to_numeric(errors="coerce")` on the `\d+\.\d+`–shaped strings the
trade regex admits: such a string parses to the exact rational it denotes;
any other string coerces to `NaN`, modelled as `none`.  (Python stores the
value as a float; floats are abstracted to exact rationals here.) -/
def parseDecimal (s : String) : Option ℚ :=
  match splitOnChar '.' s.data with
  | [a, b] =>
    if !a.isEmpty && !b.isEmpty && a.all Char.isDigit && b.all Char.isDigit then
      some ((charsToNat a : ℚ) + (charsToNat b : ℚ) / (10 : ℚ) ^ b.length)
    else none
  | _ => none

/-- Python `round()` / numpy rounding: round half to even. -/
def halfEvenRound (q : ℚ) : ℤ :=
  let f := ⌊q⌋
  let r := q - (f : ℚ)
  if r < 1 / 2 then f
  else if 1 / 2 < r then f + 1
  else if 2 ∣ f then f else f + 1

/-- Models `round(q, places)` / `Series.round(places)`: half-even at a decimal
position. -/
def roundTo (places : Nat) (q : ℚ) : ℚ :=
  (halfEvenRound (q * (10 : ℚ) ^ places) : ℚ) / (10 : ℚ) ^ places

def isLeapYear (y : Nat) : Bool :=
  (y % 4 == 0 && y % 100 != 0) || y % 400 == 0

def daysInMonth (y m : Nat) : Nat :=
  if m = 2 then (if isLeapYear y then 29 else 28)
  else if m = 4 ∨ m = 6 ∨ m = 9 ∨ m = 11 then 30
  else 31

/-- Models `pd.to_datetime(..., errors="coerce").dt.strftime("%d/%m/%Y")` on the
`YYYY-MM-DD` strings the date regex admits: a calendar-valid date is
re-rendered as `DD/MM/YYYY`; anything else coerces to `NaT` (`none`). -/
def formatKrakenDate (s : String) : Option String :=
  match splitOnChar '-' s.data with
  | [y, m, d] =>
    if y.length = 4 ∧ m.length = 2 ∧ d.length = 2 ∧
        (y ++ m ++ d).all Char.isDigit = true ∧
        1 ≤ charsToNat m ∧ charsToNat m ≤ 12 ∧
        1 ≤ charsToNat d ∧ charsToNat d ≤ daysInMonth (charsToNat y) (charsToNat m) then
      some ⟨d ++ '/' :: m ++ '/' :: y⟩
    else none
  | _ => none

/-- Models `TradeRegex.PAIR_TOKEN = ^([A-Z0-9]+)/` via `Series.str.extract`: the
capture is the maximal leading `[A-Z0-9]` run provided it is nonempty and
immediately followed by `/`; otherwise the cell is `NaN` (`none`). -/
def pairToken (s : String) : Option String :=
  match s.data.takeWhile isUpperAlnum, s.data.dropWhile isUpperAlnum with
  | [], _ => none
  | run, '/' :: _ => some ⟨run⟩
  | _, _ => none

/-- Helper for `TradeRegex.PAIR_CURRENCY = /([A-Z]+)` (unanchored search):
at the first `/` immediately followed by an uppercase letter, capture the
maximal `[A-Z]` run after it. -/
def currencyFromChars : List Char → Option String
  | [] => none
  | '/' :: rest =>
    match rest.takeWhile isUpperAZ with
    | [] => currencyFromChars rest
    | run => some ⟨run⟩
  | _ :: rest => currencyFromChars rest

/-- Models `Series.str.extract(TradeRegex.PAIR_CURRENCY)` on one cell. -/
def pairCurrency (s : String) : Option String := currencyFromChars s.data

/-- A normalized trade row: one row of the DataFrame built by
`build_trade_dataframe`, after the date formatting, numeric conversion,
column rename and currency/token extraction.  `none` models pandas
`NaN`/`NaT` cells. -/
structure TradeRow where
  unique_id : String
  date : Option String
  pair : String
  trade_type : String
  execution_type : String
  trade_price : Option ℚ
  transaction_price : Option ℚ
  transferred_volume : Option ℚ
  fee : Option ℚ
  currency : Option String
  token : Option String
  deriving Repr, DecidableEq

/-- One row of `build_trade_dataframe` (src/file_management/pdf_parser.py
lines 32–64): format the date, convert the four numeric columns with
`.round(FormatRules.ROUNDING_DECIMAL_PLACES) = .round(10)`, apply the fixed
`RawColumn → TradeColumn` rename, extract currency and token from the pair. -/
def normalizeRecord (r : RawRecord) : TradeRow where
  unique_id := r.uid
  date := formatKrakenDate r.date
  pair := r.pair
  trade_type := r.type
  execution_type := r.subtype
  trade_price := (parseDecimal r.price).map (roundTo 10)
  transaction_price := (parseDecimal r.cost).map (roundTo 10)
  transferred_volume := (parseDecimal r.volume).map (roundTo 10)
  fee := (parseDecimal r.fee).map (roundTo 10)
  currency := pairCurrency r.pair
  token := pairToken r.pair

/-- A DataFrame cell: a string, an integer, an exact numeric value, or a
missing value (`NaN`/`NaT`). -/
inductive Cell where
  | str (s : String)
  | int (z : ℤ)
  | num (q : ℚ)
  | nan
  deriving Repr, DecidableEq

def strCell : Option String → Cell
  | some s => .str s
  | none => .nan

def numCell : Option ℚ → Cell
  | some q => .num q
  | none => .nan

/-- Lists `[col.value for col in TradeColumn]`: the fixed, enumerated normalized
column order (kraken_core/enums.py). -/
def tradeColumns : List String :=
  ["Unique ID", "Date", "Pair", "Trade Type", "Execution Type", "Trade Price",
   "Transaction Price", "Transferred Volume", "Fee", "Currency", "Token"]

/-- The ten named capture groups of `TradeRegex.TRADE`, in declaration
order. -/
def rawColumns : List String :=
  ["date", "uid", "pair", "type", "subtype", "price", "cost", "volume", "fee",
   "margin"]

/-- The explicit `RawColumn → TradeColumn` rename mapping passed to
`df.rename` in `build_trade_dataframe` (pdf_parser.py lines 48–57). -/
def renameMap : List (String × String) :=
  [("uid", "Unique ID"), ("pair", "Pair"), ("type", "Trade Type"),
   ("subtype", "Execution Type"), ("price", "Trade Price"),
   ("cost", "Transaction Price"), ("volume", "Transferred Volume"),
   ("fee", "Fee")]

/-- A normalized row as the final DataFrame presents it: labelled cells in
the fixed `TradeColumn` order. -/
def tradeRowCells (t : TradeRow) : List (String × Cell) :=
  [("Unique ID", .str t.unique_id), ("Date", strCell t.date),
   ("Pair", .str t.pair), ("Trade Type", .str t.trade_type),
   ("Execution Type", .str t.execution_type),
   ("Trade Price", numCell t.trade_price),
   ("Transaction Price", numCell t.transaction_price),
   ("Transferred Volume", numCell t.transferred_volume),
   ("Fee", numCell t.fee), ("Currency", strCell t.currency),
   ("Token", strCell t.token)]

/-- Sum of a pandas numeric column with the default `skipna=True`: `NaN`
entries are ignored. -/
def nanSum (l : List (Option ℚ)) : ℚ := (l.filterMap id).sum

/-- Market data handed to `compute_trade_metrics`.  In the source the
`MarketData` dataclass declaration is not part of this tree; the only field
the aggregator reads is `price : Optional[float]`, defaulting to `None`
(`MarketData()` is the explicit empty fallback). -/
structure MarketData where
  price : Option ℚ := none
  deriving Repr, DecidableEq

/-- The `MainSummaryMetrics` record as `compute_trade_metrics`
(src/src/file_management/portfolio_metrics.py lines 52–67) fills it, one
field per keyword argument of the constructor call. -/
structure ComputedMetrics where
  token : Option String
  bought_volume : ℚ
  sold_volume : ℚ
  remaining_volume : ℚ
  average_buy_price : ℚ
  average_sell_price : ℚ
  market_price : ℚ
  total_cost : ℚ
  realized_sells : ℚ
  unrealized_value : ℚ
  total_value : ℚ
  roi : ℚ
  if_all_sold_now_roi : ℚ
  market_data : MarketData
  deriving Repr, DecidableEq

/-- The `TradeMetricsResult` returned by `compute_trade_metrics`
(portfolio_metrics.py lines 69–75). -/
structure TradeMetricsResult where
  remaining_volume : ℚ
  total_value : ℚ
  potential_value : ℚ
  cost : ℚ
  metrics : ComputedMetrics
  deriving Repr, DecidableEq

/-- Embeds `compute_trade_metrics` (src/src/file_management/portfolio_metrics.py
lines 12–75).  `group` is one `groupby(pair)` group of normalized rows
(always nonempty in the pipeline; `iloc[0]` is modelled totally via
`head?`).  Python truthiness guards (`or 0.0`, `if buy_volume`, `if cost`)
are zero tests. -/
def compute_trade_metrics (pair : String) (group : List TradeRow)
    (market_data : Option MarketData) : TradeMetricsResult :=
  let md := market_data.getD {}
  let buys := group.filter (·.trade_type == "Buy")
  let sells := group.filter (·.trade_type == "Sell")
  let buy_volume := nanSum (buys.map (·.transferred_volume))
  let sell_volume := nanSum (sells.map (·.transferred_volume))
  let buy_total := nanSum (buys.map (·.transaction_price))
  let buy_fee := nanSum (buys.map (·.fee))
  let sell_total := nanSum (sells.map (·.transaction_price))
  let remaining_volume := max (buy_volume - sell_volume) 0
  let cost := buy_total + buy_fee
  let market_price := match md.price with
    | some p => if p = 0 then 0 else p
    | none => 0
  let current_value := remaining_volume * market_price
  let potential_value := buy_volume * market_price
  let total_value := current_value + sell_total
  let average_buy_price := if buy_volume ≠ 0 then cost / buy_volume else 0
  let average_sell_price := if sell_volume ≠ 0 then sell_total / sell_volume else 0
  let realized_roi := if cost ≠ 0 then (total_value - cost) / cost else 0
  let potential_roi := if cost ≠ 0 then (potential_value - cost) / cost else 0
  { remaining_volume := remaining_volume
    total_value := total_value
    potential_value := potential_value
    cost := cost
    metrics :=
      { token := group.head?.bind (·.token)
        bought_volume := buy_volume
        sold_volume := sell_volume
        remaining_volume := remaining_volume
        average_buy_price := average_buy_price
        average_sell_price := average_sell_price
        market_price := market_price
        total_cost := cost
        realized_sells := sell_total
        unrealized_value := current_value
        total_value := total_value
        roi := realized_roi * 100
        if_all_sold_now_roi := potential_roi * 100
        market_data := md } }

/-- The synthetic buy row of `manual_onyx_injection`
(src/src/market/manual_injections.py lines 8–27). -/
def manualOnyxBuy : TradeRow where
  unique_id := "MANUAL-ONYX-BUY"
  date := some "12/03/2025"
  pair := "XCN/EUR"
  trade_type := "Buy"
  execution_type := "Market"
  trade_price := some 0.1210
  transaction_price := some 640.0
  transferred_volume := some 47339.9627
  fee := some 30.0
  currency := some "EUR"
  token := some "XCN"

/-- The synthetic buy row of `manual_litecoin_injection`
(manual_injections.py lines 31–50). -/
def manualLitecoinBuy : TradeRow where
  unique_id := "MANUAL-LTC-BUY"
  date := some "20/07/2025"
  pair := "LTC/EUR"
  trade_type := "Buy"
  execution_type := "Market"
  trade_price := some 93.8
  transaction_price := some 16.32
  transferred_volume := some 0.16468818
  fee := some 0.0
  currency := some "EUR"
  token := some "LTC"

/-- Embeds `manual_onyx_injection`: `pd.concat([buys, manual_buy])`. -/
def manual_onyx_injection (buys : List TradeRow) : List TradeRow :=
  buys ++ [manualOnyxBuy]

/-- Embeds `manual_litecoin_injection`: `pd.concat([buys, manual_buy])`. -/
def manual_litecoin_injection (buys : List TradeRow) : List TradeRow :=
  buys ++ [manualLitecoinBuy]

/-- Embeds `apply_manual_injections` (src/file_management/excel_writer.py lines
144–153). -/
def apply_manual_injections (pair : String) (buys : List TradeRow) :
    List TradeRow :=
  if pair = "XCN/EUR" then manual_onyx_injection buys
  else if pair = "LTC/EUR" then manual_litecoin_injection buys
  else buys

/-- The `MainSummaryMetrics` ROI record appended by `write_excel`
(excel_writer.py lines 204–217; fields per
src/src/kraken_core/models.py lines 50–71). -/
structure MainSummaryMetrics where
  token : Option String
  pair : String
  total_cost : ℚ
  realized_sells : ℚ
  unrealized_value : ℚ
  total_value : ℚ
  roi : ℚ
  potential_roi : ℚ
  deriving Repr, DecidableEq

/-- All local values the per-pair block of `write_excel` computes for one
`groupby(pair)` group, plus the appended ROI record. -/
structure PairReport where
  buys : List TradeRow
  sells : List TradeRow
  buy_volume : ℚ
  sell_volume : ℚ
  buy_total : ℚ
  buy_fee : ℚ
  sell_total : ℚ
  remaining_volume : ℚ
  cost : ℚ
  current_value : ℚ
  potential_value : ℚ
  total_value : ℚ
  realized_roi : ℚ
  potential_roi : ℚ
  summary : MainSummaryMetrics
  deriving Repr, DecidableEq

/-- The arithmetic of the per-pair block of `write_excel`
(src/file_management/excel_writer.py lines 176–217) when the fetched
market price is a number `mp`.  `FormatRules.DECIMAL_PLACES_8 = 8`. -/
def writeExcelReport (pair : String) (group : List TradeRow) (mp : ℚ) :
    PairReport :=
  let sells := group.filter (·.trade_type == "Sell")
  let pdfBuys := group.filter (·.trade_type == "Buy")
  let buys := apply_manual_injections pair pdfBuys
  let buy_volume := nanSum (buys.map (·.transferred_volume))
  let sell_volume := nanSum (sells.map (·.transferred_volume))
  let buy_total := nanSum (buys.map (·.transaction_price))
  let buy_fee := nanSum (buys.map (·.fee))
  let sell_total := nanSum (sells.map (·.transaction_price))
  let remaining_volume := buy_volume - sell_volume
  let cost := buy_total + buy_fee
  let current_value := remaining_volume * mp
  let potential_value := buy_volume * mp
  let total_value := current_value + sell_total
  let realized_roi := if cost > 0 then (total_value - cost) / cost else 0
  let potential_roi := if cost > 0 then (potential_value - cost) / cost else 0
  { buys := buys
    sells := sells
    buy_volume := buy_volume
    sell_volume := sell_volume
    buy_total := buy_total
    buy_fee := buy_fee
    sell_total := sell_total
    remaining_volume := remaining_volume
    cost := cost
    current_value := current_value
    potential_value := potential_value
    total_value := total_value
    realized_roi := realized_roi
    potential_roi := potential_roi
    summary :=
      { token := group.head?.bind (·.token)
        pair := pair
        total_cost := cost
        realized_sells := sell_total
        unrealized_value := current_value
        total_value := total_value
        roi := roundTo 8 (realized_roi * 100)
        potential_roi := roundTo 8 (potential_roi * 100) } }

/-- The per-pair block of `write_excel` (excel_writer.py lines 173–232).
`market_price` is the `Optional[float]` result of `fetch_market_price`,
which catches every request/parsing error and returns `None`.  When it is
`None`, line 192 (`current_value = remaining_volume * market_price`)
multiplies a float by `None` and Python raises `TypeError`; `write_excel`
does not catch it, so the whole report aborts - modelled as `.error`. -/
def writeExcelPair (pair : String) (group : List TradeRow)
    (market_price : Option ℚ) : Except String PairReport :=
  match market_price with
  | none => .error "TypeError: unsupported operand types for *: float and NoneType"
  | some mp => .ok (writeExcelReport pair group mp)

/-- Embeds `generate_portfolio_summary` (excel_writer.py lines 83–113, identical in
src/src/file_management/portfolio_metrics.py lines 78–108): the fixed-row
summary table, as (Metric, EUR Value) pairs. -/
def generate_portfolio_summary (total_buys total_sells unrealized_value
    total_all_sold_now_value : ℚ) : List (String × Cell) :=
  let net_result := halfEvenRound (total_sells + unrealized_value - total_buys)
  let potential_profit := halfEvenRound (total_all_sold_now_value - total_buys)
  [("Total Buys", .int (halfEvenRound total_buys)),
   ("Total Sells", .int (halfEvenRound total_sells)),
   ("Unrealized Value (if rest sold)", .int (halfEvenRound unrealized_value)),
   ("If All Bought Sold Now (market value)",
     .int (halfEvenRound total_all_sold_now_value)),
   ("Net Position", .int net_result),
   ("You Could Be Up To",
     .str ((if potential_profit ≥ 0 then "🟢 You could be up to"
            else "🔻 You could be down by") ++ " €" ++
       toString potential_profit.natAbs)),
   ("Result",
     .str ((if net_result ≥ 0 then "🟢 You’re up" else "🔻 You’re down") ++
       " €" ++ toString net_result.natAbs))]

/-- The normalized row of the spec's end-to-end example (one BTC/EUR
market buy). -/
def btcBuyRow : TradeRow where
  unique_id := "TXID1"
  date := some "05/01/2024"
  pair := "BTC/EUR"
  trade_type := "Buy"
  execution_type := "Market"
  trade_price := some 50000
  transaction_price := some 500
  transferred_volume := some 0.01
  fee := some 1
  currency := some "EUR"
  token := some "BTC"

/-- A normalized table consisting of one sell and no buys (a group shape
`groupby` can hand the aggregators). -/
def soloSellRow : TradeRow where
  unique_id := "SELL-1"
  date := some "01/01/2024"
  pair := "SOL/EUR"
  trade_type := "Sell"
  execution_type := "Market"
  trade_price := some 10
  transaction_price := some 10
  transferred_volume := some 1
  fee := some 0
  currency := some "EUR"
  token := some "SOL"

deriving instance DecidableEq for Except

/-- The whole-document extractor with the scan in structural form. -/
theorem extractKrakenTradeRecords_eq (pages : List (List String)) :
    extractKrakenTradeRecords pages =
      if ((pages.map fun lines =>
            (specStepRule lines).filterMap matchTrade).flatten).isEmpty then
        .error "No trades matched — check PDF format or regex."
      else
        .ok ((pages.map fun lines =>
          (specStepRule lines).filterMap matchTrade).flatten) := by
  simp only [extractKrakenTradeRecords, mergeCandidates_eq_specStepRule]

/-- C4: the page scan of `extract_kraken_trade_records_from_pdf` obeys
exactly the claimed stepping rule — if line `i` is a date-line and line
`i+1` does not start with `"Page"`, the stripped lines are joined with one
space and the index advances by 2, otherwise it advances by 1; the rule
only ever forms a candidate while at least two lines remain, so the final
line is never examined as a date-line (in particular a trailing single
line, date-shaped or not, produces nothing), and the scan is a total
function. -/
theorem C4_scan_stepping_rule (lines : List String) :
    mergeCandidates lines = specStepRule lines ∧
      ∀ last : String, mergeCandidates [last] = [] := by
  refine ⟨mergeCandidates_eq_specStepRule lines, fun last => ?_⟩
  rw [mergeCandidates_eq_specStepRule]
  rfl

/-- C10 (implicit): whenever line `i` is a date-line and line `i+1` does
not start with `"Page"`, the scan consumes both lines even when the merged
candidate fails the trade regex; concretely, for two consecutive
date-lines followed by a valid trade line, extraction finds nothing (the
second date-line is swallowed as a trade-line, so the valid record starting
at it is silently skipped and extraction even turns fatal), while the same
document without the first date-line yields the record. -/
theorem C10_dateline_pair_always_consumed (a b : String) (rest : List String)
    (h1 : dateRegexMatches (pyStrip a) = true)
    (h2 : pyStartsWith (pyStrip b) "Page" = false) :
    mergeCandidates (a :: b :: rest)
        = (pyStrip a ++ " " ++ pyStrip b) :: mergeCandidates rest ∧
      extractKrakenTradeRecords
          [["2024-01-05", "2024-01-06",
            "TXID1 BTC/EUR Buy Market 50000.00 500.00 0.01 1.00 0.00"]]
        = .error "No trades matched — check PDF format or regex." ∧
      extractKrakenTradeRecords
          [["2024-01-06",
            "TXID1 BTC/EUR Buy Market 50000.00 500.00 0.01 1.00 0.00"]]
        = .ok [⟨"2024-01-06", "TXID1", "BTC/EUR", "Buy", "Market",
            "50000.00", "500.00", "0.01", "1.00", "0.00"⟩] := by
  refine ⟨?_, ?_, ?_⟩
  · rw [mergeCandidates_eq_specStepRule, mergeCandidates_eq_specStepRule,
      specStepRule]
    simp [h1, h2]
  · rw [extractKrakenTradeRecords_eq]
    decide
  · rw [extractKrakenTradeRecords_eq]
    decide

/-- Closed instantiation of `C10_dateline_pair_always_consumed`. -/
theorem C10_dateline_pair_always_consumed_witness :
    mergeCandidates ["2024-01-05", "2024-01-06"]
        = ["2024-01-05 2024-01-06"] ∧
      extractKrakenTradeRecords
          [["2024-01-05", "2024-01-06",
            "TXID1 BTC/EUR Buy Market 50000.00 500.00 0.01 1.00 0.00"]]
        = .error "No trades matched — check PDF format or regex." := by
  have h := C10_dateline_pair_always_consumed "2024-01-05" "2024-01-06" []
    (by decide) (by decide)
  refine ⟨?_, h.2.1⟩
  rw [h.1, mergeCandidates_eq_specStepRule]
  decide

/-- C3: if no merge candidate of any page matches the trade regex, the
extractor raises (`RuntimeError`, modelled as `.error`) instead of
returning an empty list, and extraction never returns `.ok []` on any
input. -/
theorem C3_zero_matches_is_fatal (pages : List (List String))
    (h : ∀ lines ∈ pages, ∀ c ∈ mergeCandidates lines, matchTrade c = none) :
    extractKrakenTradeRecords pages
        = .error "No trades matched — check PDF format or regex." ∧
      ∀ ps : List (List String), extractKrakenTradeRecords ps ≠ .ok [] := by
  constructor
  · have hempty :
        ((pages.map fun lines =>
          (mergeCandidates lines).filterMap matchTrade).flatten) = [] := by
      rw [List.flatten_eq_nil_iff]
      intro l hl
      rw [List.mem_map] at hl
      obtain ⟨lines, hlines, rfl⟩ := hl
      rw [List.filterMap_eq_nil_iff]
      exact h lines hlines
    rw [extractKrakenTradeRecords]
    rw [hempty]
    rfl
  · intro ps
    rw [extractKrakenTradeRecords]
    split
    · simp
    next hne =>
      intro hok
      rw [Except.ok.injEq] at hok
      rw [hok] at hne
      simp at hne

/-- Closed instantiation of `C3_zero_matches_is_fatal` on a document whose
only page has no matching candidate. -/
theorem C3_zero_matches_is_fatal_witness :
    extractKrakenTradeRecords [["hello", "world"]]
        = .error "No trades matched — check PDF format or regex." := by
  have h : ∀ lines ∈ ([["hello", "world"]] : List (List String)),
      ∀ c ∈ mergeCandidates lines, matchTrade c = none := by
    intro lines hl c hc
    rw [List.mem_singleton] at hl
    subst hl
    rw [mergeCandidates_eq_specStepRule] at hc
    simp only [show specStepRule ["hello", "world"] = [] from by decide] at hc
    exact absurd hc (List.not_mem_nil c)
  exact (C3_zero_matches_is_fatal [["hello", "world"]] h).1

/-- Projection identity: the realized-ROI local of `compute_trade_metrics`
as stored in the returned metrics. -/
theorem ctm_roi_eq (pair : String) (group : List TradeRow)
    (md : Option MarketData) :
    (compute_trade_metrics pair group md).metrics.roi
      = (if (compute_trade_metrics pair group md).cost ≠ 0 then
          ((compute_trade_metrics pair group md).total_value
            - (compute_trade_metrics pair group md).cost)
          / (compute_trade_metrics pair group md).cost
        else 0) * 100 := rfl

/-- Projection identity: the potential-ROI local of `compute_trade_metrics`
as stored in the returned metrics. -/
theorem ctm_potential_roi_eq (pair : String) (group : List TradeRow)
    (md : Option MarketData) :
    (compute_trade_metrics pair group md).metrics.if_all_sold_now_roi
      = (if (compute_trade_metrics pair group md).cost ≠ 0 then
          ((compute_trade_metrics pair group md).potential_value
            - (compute_trade_metrics pair group md).cost)
          / (compute_trade_metrics pair group md).cost
        else 0) * 100 := rfl

/-- Projection identity: the guarded realized ROI of the `write_excel`
per-pair block. -/
theorem wer_realized_roi_eq (pair : String) (group : List TradeRow) (mp : ℚ) :
    (writeExcelReport pair group mp).realized_roi
      = if (writeExcelReport pair group mp).cost > 0 then
          ((writeExcelReport pair group mp).total_value
            - (writeExcelReport pair group mp).cost)
          / (writeExcelReport pair group mp).cost
        else 0 := rfl

/-- Projection identity: the guarded potential ROI of the `write_excel`
per-pair block. -/
theorem wer_potential_roi_eq (pair : String) (group : List TradeRow) (mp : ℚ) :
    (writeExcelReport pair group mp).potential_roi
      = if (writeExcelReport pair group mp).cost > 0 then
          ((writeExcelReport pair group mp).potential_value
            - (writeExcelReport pair group mp).cost)
          / (writeExcelReport pair group mp).cost
        else 0 := rfl

/-- C1 counterexample: on a group holding one sell of volume 1 and no buys,
the per-pair aggregation inside `write_excel` reports
`remaining_volume = -1`, a negative value, so the claim's
`max(bought_volume - sold_volume, 0)` floor does not hold for it. -/
theorem C1_counterexample :
    (writeExcelPair "SOL/EUR" [soloSellRow] (some 10)).toOption.map
        PairReport.remaining_volume = some (-1) ∧ ((-1 : ℚ) < 0) := by
  constructor
  · simp [writeExcelPair, writeExcelReport, apply_manual_injections,
      soloSellRow, nanSum]
    exact ⟨_, rfl, rfl⟩
  · norm_num

/-- C1 (amended): `compute_trade_metrics` computes
`remaining_volume = max(bought_volume - sold_volume, 0)`, which is never
negative, exactly as the claim states; the inline per-pair aggregator of
`write_excel`, however, computes
`remaining_volume = buy_volume - sell_volume` with no floor (over the
injection-extended buy side), so it can go negative. -/
theorem C1_remaining_volume_floor (pair : String) (group : List TradeRow)
    (md : Option MarketData) (mp : ℚ) :
    (compute_trade_metrics pair group md).remaining_volume
        = max (nanSum ((group.filter (·.trade_type == "Buy")).map
              (·.transferred_volume))
            - nanSum ((group.filter (·.trade_type == "Sell")).map
              (·.transferred_volume))) 0 ∧
      0 ≤ (compute_trade_metrics pair group md).remaining_volume ∧
      (writeExcelPair pair group (some mp)).toOption.map
          PairReport.remaining_volume
        = some (nanSum ((apply_manual_injections pair
              (group.filter (·.trade_type == "Buy"))).map
              (·.transferred_volume))
            - nanSum ((group.filter (·.trade_type == "Sell")).map
              (·.transferred_volume))) :=
  ⟨rfl, le_max_right _ _, rfl⟩

/-- C2, evaluated at the failing input: with one normalized BTC/EUR buy row
and a failed market-price fetch (`fetch_market_price` returned `None`), the
`write_excel` per-pair block raises `TypeError` — the report (and with it
the pipeline, via main's catch-all `sys.exit(1)`) aborts — whereas the
`compute_trade_metrics` variant proceeds and, as the claim describes,
evaluates `unrealized_value = remaining_volume * market_price` to 0 when
the price is unknown. -/
theorem C2_failed_fetch_aborts :
    writeExcelPair "BTC/EUR" [btcBuyRow] none
        = .error "TypeError: unsupported operand types for *: float and NoneType" ∧
      (compute_trade_metrics "BTC/EUR" [btcBuyRow] none).metrics.unrealized_value
          = 0 ∧
      (compute_trade_metrics "BTC/EUR" [btcBuyRow]
          (some { price := none })).metrics.unrealized_value = 0 := by
  refine ⟨rfl, ?_, ?_⟩ <;> simp [compute_trade_metrics]

/-- C5: in both aggregator variants the ROI division is guarded — zero cost
yields roi = 0 and potential roi = 0 with the division never taken, and
positive cost yields exactly the `(value - cost) / cost` ratios (times 100
in `compute_trade_metrics`, which stores percentages). -/
theorem C5_roi_division_guard (pair : String) (group : List TradeRow)
    (md : Option MarketData) (mp : ℚ) :
    ((compute_trade_metrics pair group md).cost = 0 →
        (compute_trade_metrics pair group md).metrics.roi = 0 ∧
        (compute_trade_metrics pair group md).metrics.if_all_sold_now_roi = 0) ∧
      (0 < (compute_trade_metrics pair group md).cost →
        (compute_trade_metrics pair group md).metrics.roi
            = ((compute_trade_metrics pair group md).total_value
                - (compute_trade_metrics pair group md).cost)
              / (compute_trade_metrics pair group md).cost * 100 ∧
        (compute_trade_metrics pair group md).metrics.if_all_sold_now_roi
            = ((compute_trade_metrics pair group md).potential_value
                - (compute_trade_metrics pair group md).cost)
              / (compute_trade_metrics pair group md).cost * 100) ∧
      ∀ r : PairReport, writeExcelPair pair group (some mp) = .ok r →
        (r.cost = 0 → r.realized_roi = 0 ∧ r.potential_roi = 0) ∧
        (0 < r.cost →
          r.realized_roi = (r.total_value - r.cost) / r.cost ∧
          r.potential_roi = (r.potential_value - r.cost) / r.cost) := by
  refine ⟨?_, ?_, ?_⟩
  · intro h
    rw [ctm_roi_eq, ctm_potential_roi_eq, if_neg (not_not_intro h),
      if_neg (not_not_intro h)]
    norm_num
  · intro h
    rw [ctm_roi_eq, ctm_potential_roi_eq, if_pos (ne_of_gt h),
      if_pos (ne_of_gt h)]
    exact ⟨rfl, rfl⟩
  · intro r hr
    simp only [writeExcelPair, Except.ok.injEq] at hr
    subst hr
    constructor
    · intro h
      rw [wer_realized_roi_eq, wer_potential_roi_eq,
        if_neg (by rw [h]; exact lt_irrefl 0),
        if_neg (by rw [h]; exact lt_irrefl 0)]
      exact ⟨rfl, rfl⟩
    · intro h
      rw [wer_realized_roi_eq, wer_potential_roi_eq, if_pos h, if_pos h]
      exact ⟨rfl, rfl⟩

/-- Closed instantiation of `C5_roi_division_guard`: an empty group has
cost 0 and both ROIs 0; the single-buy example group has positive cost and
the ratio form. -/
theorem C5_roi_division_guard_witness :
    ((compute_trade_metrics "SOL/EUR" [] none).metrics.roi = 0 ∧
      (compute_trade_metrics "SOL/EUR" [] none).metrics.if_all_sold_now_roi = 0) ∧
      ((compute_trade_metrics "BTC/EUR" [btcBuyRow] none).metrics.roi
          = ((compute_trade_metrics "BTC/EUR" [btcBuyRow] none).total_value
              - (compute_trade_metrics "BTC/EUR" [btcBuyRow] none).cost)
            / (compute_trade_metrics "BTC/EUR" [btcBuyRow] none).cost * 100) ∧
      ((writeExcelReport "SOL/EUR" [] 1).cost = 0 →
        (writeExcelReport "SOL/EUR" [] 1).realized_roi = 0 ∧
        (writeExcelReport "SOL/EUR" [] 1).potential_roi = 0) := by
  refine ⟨?_, ?_, ?_⟩
  · exact (C5_roi_division_guard "SOL/EUR" [] none 1).1
      (by simp [compute_trade_metrics, nanSum])
  · exact ((C5_roi_division_guard "BTC/EUR" [btcBuyRow] none 1).2.1
      (by simp [compute_trade_metrics, nanSum, btcBuyRow]; norm_num)).1
  · exact ((C5_roi_division_guard "SOL/EUR" [] none 1).2.2
      (writeExcelReport "SOL/EUR" [] 1) rfl).1

/-- Rounding `halfEvenRound` is the identity on integers. -/
theorem halfEvenRound_intCast (z : ℤ) : halfEvenRound (z : ℚ) = z := by
  simp [halfEvenRound]

/-- Rounding `roundTo` leaves a rational unchanged when it already has at most
`places` decimal digits. -/
theorem roundTo_eq_self (places : ℕ) (q : ℚ) (z : ℤ)
    (h : q * (10 : ℚ) ^ places = (z : ℚ)) : roundTo places q = q := by
  rw [roundTo, h, halfEvenRound_intCast, ← h]
  exact mul_div_cancel_right₀ q (by positivity)

/-- Closed instantiation of `roundTo_eq_self`. -/
theorem roundTo_eq_self_witness : roundTo 10 (1 / 100 : ℚ) = 1 / 100 :=
  roundTo_eq_self 10 (1 / 100) 100000000 (by norm_num)

/-- C7: for pair XCN/EUR the buy side handed to the aggregator always gains
exactly one synthetic row beyond the PDF-derived buys — the hard-coded
`manualOnyxBuy`, whose unique id is "MANUAL-ONYX-BUY" — and that id is
present in the aggregated buy set for the pair regardless of the
PDF-derived content. -/
theorem C7_onyx_injection (buys group : List TradeRow) (mp : ℚ) :
    apply_manual_injections "XCN/EUR" buys = buys ++ [manualOnyxBuy] ∧
      manualOnyxBuy.unique_id = "MANUAL-ONYX-BUY" ∧
      (apply_manual_injections "XCN/EUR" buys).length = buys.length + 1 ∧
      ((apply_manual_injections "XCN/EUR" buys).map
          (·.unique_id)).count "MANUAL-ONYX-BUY"
        = ((buys.map (·.unique_id)).count "MANUAL-ONYX-BUY") + 1 ∧
      "MANUAL-ONYX-BUY" ∈ (writeExcelReport "XCN/EUR" group mp).buys.map
        (·.unique_id) := by
  refine ⟨rfl, rfl, ?_, ?_, ?_⟩
  · simp [apply_manual_injections, manual_onyx_injection]
  · simp [apply_manual_injections, manual_onyx_injection, manualOnyxBuy]
  · have hbuys : (writeExcelReport "XCN/EUR" group mp).buys
        = (group.filter (·.trade_type == "Buy")) ++ [manualOnyxBuy] := rfl
    rw [hbuys, List.map_append]
    exact List.mem_append_right _ (by simp [manualOnyxBuy])

/-- C8: `generate_portfolio_summary` computes
`net_result = round(total_sells + unrealized_value - total_buys)` and
`potential_profit = round(total_all_sold_now_value - total_buys)` with
Python's half-even `round`, and each textual status row is chosen purely by
the sign of its rounded value: non-negative gives the green "up" message,
negative the red "down" message carrying the absolute value. -/
theorem C8_portfolio_summary (tb ts uv tas : ℚ) :
    (generate_portfolio_summary tb ts uv tas).length = 7 ∧
      ("Net Position", Cell.int (halfEvenRound (ts + uv - tb)))
          ∈ generate_portfolio_summary tb ts uv tas ∧
      (0 ≤ halfEvenRound (tas - tb) →
        ("You Could Be Up To", Cell.str ("🟢 You could be up to" ++ " €" ++
            toString (halfEvenRound (tas - tb)).natAbs))
          ∈ generate_portfolio_summary tb ts uv tas) ∧
      (halfEvenRound (tas - tb) < 0 →
        ("You Could Be Up To", Cell.str ("🔻 You could be down by" ++ " €" ++
            toString (halfEvenRound (tas - tb)).natAbs))
          ∈ generate_portfolio_summary tb ts uv tas) ∧
      (0 ≤ halfEvenRound (ts + uv - tb) →
        ("Result", Cell.str ("🟢 You’re up" ++ " €" ++
            toString (halfEvenRound (ts + uv - tb)).natAbs))
          ∈ generate_portfolio_summary tb ts uv tas) ∧
      (halfEvenRound (ts + uv - tb) < 0 →
        ("Result", Cell.str ("🔻 You’re down" ++ " €" ++
            toString (halfEvenRound (ts + uv - tb)).natAbs))
          ∈ generate_portfolio_summary tb ts uv tas) := by
  refine ⟨rfl, ?_, ?_, ?_, ?_, ?_⟩
  · simp [generate_portfolio_summary]
  · intro h
    have e : (if halfEvenRound (tas - tb) ≥ 0 then "🟢 You could be up to"
        else "🔻 You could be down by") = "🟢 You could be up to" := if_pos h
    simp [generate_portfolio_summary, e]
  · intro h
    have e : (if halfEvenRound (tas - tb) ≥ 0 then "🟢 You could be up to"
        else "🔻 You could be down by") = "🔻 You could be down by" :=
      if_neg (by omega)
    simp [generate_portfolio_summary, e]
  · intro h
    have e : (if halfEvenRound (ts + uv - tb) ≥ 0 then "🟢 You’re up"
        else "🔻 You’re down") = "🟢 You’re up" := if_pos h
    simp [generate_portfolio_summary, e]
  · intro h
    have e : (if halfEvenRound (ts + uv - tb) ≥ 0 then "🟢 You’re up"
        else "🔻 You’re down") = "🔻 You’re down" := if_neg (by omega)
    simp [generate_portfolio_summary, e]

/-- Closed instantiation of `C8_portfolio_summary`: a positive net position
gets the green message, a negative one the red message with the absolute
value. -/
theorem C8_portfolio_summary_witness :
    (("Result", Cell.str ("🟢 You’re up" ++ " €" ++
        toString (halfEvenRound ((1 : ℚ) + 0 - 0)).natAbs))
        ∈ generate_portfolio_summary 0 1 0 0) ∧
      (("Result", Cell.str ("🔻 You’re down" ++ " €" ++
        toString (halfEvenRound ((0 : ℚ) + 0 - 1)).natAbs))
        ∈ generate_portfolio_summary 1 0 0 0) :=
  ⟨(C8_portfolio_summary 0 1 0 0).2.2.2.2.1 (by norm_num [halfEvenRound]),
   (C8_portfolio_summary 1 0 0 0).2.2.2.2.2 (by norm_num [halfEvenRound])⟩

/-- C9 counterexample: the `margin` capture group, although part of every
raw record, maps to no normalized output column — two raw records that
differ only in `margin` normalize to the same row, and no output column
exists for it (11 output columns for 10 captured fields, with `date`
reformatted in place). -/
theorem C9_counterexample :
    normalizeRecord ⟨"2024-01-05", "TXID1", "BTC/EUR", "Buy", "Market",
        "50000.00", "500.00", "0.01", "1.00", "0.00"⟩
      = normalizeRecord ⟨"2024-01-05", "TXID1", "BTC/EUR", "Buy", "Market",
        "50000.00", "500.00", "0.01", "1.00", "9.99"⟩ ∧
      "margin" ∉ tradeColumns ∧
      (renameMap.map Prod.fst).count "margin" = 0 :=
  ⟨rfl, by decide, by decide⟩

/-- C9 (amended): the rename mapping is fixed and total on the nine raw
fields other than `margin` — `date` maps to the `Date` column via the
direct reformatting assignment, and the remaining eight raw fields each map
to exactly one distinct normalized column through the explicit rename map —
while the captured `margin` field is dropped; the output columns are
exactly the enumerated `TradeColumn` order. -/
theorem C9_column_mapping (r : RawRecord) (margin2 : String) :
    (tradeRowCells (normalizeRecord r)).map Prod.fst = tradeColumns ∧
      renameMap.map Prod.fst
          = ["uid", "pair", "type", "subtype", "price", "cost", "volume",
             "fee"] ∧
      (renameMap.map Prod.snd).Nodup ∧
      (∀ p ∈ renameMap, p.2 ∈ tradeColumns) ∧
      ("Date", strCell (formatKrakenDate r.date))
          ∈ tradeRowCells (normalizeRecord r) ∧
      normalizeRecord { r with margin := margin2 } = normalizeRecord r := by
  refine ⟨rfl, rfl, by decide, by decide, ?_, rfl⟩
  simp [tradeRowCells, normalizeRecord]

/-- C6: the spec's end-to-end example.  The two input lines extract to
exactly one raw record; normalization yields the claimed row (unique id
TXID1, pair BTC/EUR, trade type Buy, execution Market, trade price
50000.00, transaction price 500.00, transferred volume 0.01, fee 1.00,
currency EUR, token BTC); and the `write_excel` per-pair aggregation with
market price 60000 yields bought volume 0.01, cost 501.00, unrealized
value 600.00 and an ROI within 0.01 of 19.76 %. -/
theorem C6_end_to_end :
    extractKrakenTradeRecords
        [["2024-01-05",
          "TXID1 BTC/EUR Buy Market 50000.00 500.00 0.01 1.00 0.00"]]
      = .ok [⟨"2024-01-05", "TXID1", "BTC/EUR", "Buy", "Market",
          "50000.00", "500.00", "0.01", "1.00", "0.00"⟩] ∧
      normalizeRecord ⟨"2024-01-05", "TXID1", "BTC/EUR", "Buy", "Market",
          "50000.00", "500.00", "0.01", "1.00", "0.00"⟩ = btcBuyRow ∧
      (writeExcelReport "BTC/EUR" [btcBuyRow] 60000).buy_volume = 0.01 ∧
      (writeExcelReport "BTC/EUR" [btcBuyRow] 60000).cost = 501 ∧
      (writeExcelReport "BTC/EUR" [btcBuyRow] 60000).current_value = 600 ∧
      |(writeExcelReport "BTC/EUR" [btcBuyRow] 60000).summary.roi
          - 1976 / 100| < 1 / 100 := by
  have hcost : (writeExcelReport "BTC/EUR" [btcBuyRow] 60000).cost
      = nanSum [some 500] + nanSum [some 1] := rfl
  have hcost' : (writeExcelReport "BTC/EUR" [btcBuyRow] 60000).cost = 501 := by
    rw [hcost]
    simp [nanSum] <;> norm_num
  have htv : (writeExcelReport "BTC/EUR" [btcBuyRow] 60000).total_value
      = (nanSum [some 0.01] - nanSum []) * 60000 + nanSum [] := rfl
  have htv' : (writeExcelReport "BTC/EUR" [btcBuyRow] 60000).total_value
      = 600 := by
    rw [htv]
    simp [nanSum] <;> norm_num
  refine ⟨?_, ?_, ?_, hcost', ?_, ?_⟩
  · rw [extractKrakenTradeRecords_eq]
    decide
  · have e1 : parseDecimal "50000.00"
        = some (((50000 : ℕ) : ℚ) + ((0 : ℕ) : ℚ) / (10 : ℚ) ^ (2 : ℕ)) := rfl
    have e2 : parseDecimal "500.00"
        = some (((500 : ℕ) : ℚ) + ((0 : ℕ) : ℚ) / (10 : ℚ) ^ (2 : ℕ)) := rfl
    have e3 : parseDecimal "0.01"
        = some (((0 : ℕ) : ℚ) + ((1 : ℕ) : ℚ) / (10 : ℚ) ^ (2 : ℕ)) := rfl
    have e4 : parseDecimal "1.00"
        = some (((1 : ℕ) : ℚ) + ((0 : ℕ) : ℚ) / (10 : ℚ) ^ (2 : ℕ)) := rfl
    simp only [normalizeRecord, btcBuyRow, e1, e2, e3, e4, Option.map_some']
    rw [TradeRow.mk.injEq]
    refine ⟨rfl, by decide, rfl, rfl, rfl, ?_, ?_, ?_, ?_, by decide, by decide⟩
    · rw [roundTo_eq_self 10 _ 500000000000000 (by norm_num)]
      norm_num
    · rw [roundTo_eq_self 10 _ 5000000000000 (by norm_num)]
      norm_num
    · rw [roundTo_eq_self 10 _ 100000000 (by norm_num)]
      norm_num
    · rw [roundTo_eq_self 10 _ 10000000000 (by norm_num)]
      norm_num
  · have hbv : (writeExcelReport "BTC/EUR" [btcBuyRow] 60000).buy_volume
        = nanSum [some 0.01] := rfl
    rw [hbv]
    simp [nanSum] <;> norm_num
  · have hcv : (writeExcelReport "BTC/EUR" [btcBuyRow] 60000).current_value
        = (nanSum [some 0.01] - nanSum []) * 60000 := rfl
    rw [hcv]
    simp [nanSum] <;> norm_num
  · have hroi : (writeExcelReport "BTC/EUR" [btcBuyRow] 60000).summary.roi
        = roundTo 8
            ((writeExcelReport "BTC/EUR" [btcBuyRow] 60000).realized_roi * 100) :=
      rfl
    rw [hroi, wer_realized_roi_eq, if_pos (by rw [hcost']; norm_num), hcost',
      htv']
    norm_num [roundTo, halfEvenRound]
    rw [abs_lt]
    constructor <;> norm_num

/-- Closed instantiation of `C9_column_mapping`: the `uid → Unique ID`
entry lands in the output columns, and changing only `margin` of the
example record leaves the normalized row unchanged. -/
theorem C9_column_mapping_witness :
    ("uid", "Unique ID").2 ∈ tradeColumns ∧
      normalizeRecord ⟨"2024-01-05", "TXID1", "BTC/EUR", "Buy", "Market",
          "50000.00", "500.00", "0.01", "1.00", "9.99"⟩
        = normalizeRecord ⟨"2024-01-05", "TXID1", "BTC/EUR", "Buy", "Market",
          "50000.00", "500.00", "0.01", "1.00", "0.00"⟩ :=
  ⟨(C9_column_mapping ⟨"2024-01-05", "TXID1", "BTC/EUR", "Buy", "Market",
      "50000.00", "500.00", "0.01", "1.00", "0.00"⟩ "9.99").2.2.2.1
      ("uid", "Unique ID") (by decide),
   (C9_column_mapping ⟨"2024-01-05", "TXID1", "BTC/EUR", "Buy", "Market",
      "50000.00", "500.00", "0.01", "1.00", "0.00"⟩ "9.99").2.2.2.2.2⟩
